import Mathlib

/-!
Verification of the fish-landings / water-quality analysis engine
(`DataAnalyzer.py` working over `FishLandings.py` records and
`PollutionRecords.py` records).

Python dictionaries are modelled as insertion-ordered association lists
(`List (κ × α)`); Python's arbitrary-precision integers are `ℤ` and its
float arithmetic over the small exact decimal inputs is modelled with `ℚ`.
The analyzer object holds two lists (`fish_list`, `water_list`); each
method is rendered as a function taking those lists explicitly.
-/

namespace FishAnalysis

/-- `FishLanding` from FishLandings.py: (category, year, species, pounds). -/
structure FishLanding where
  category : String
  year : ℤ
  species : String
  pounds : ℤ
deriving DecidableEq, Repr

/-- `WaterQualityRecord` from PollutionRecords.py:
(station_name, date, dissolved_oxygen, water_temp, year). -/
structure WaterQualityRecord where
  station_name : String
  date : String
  dissolved_oxygen : ℚ
  water_temp : Option ℚ
  year : ℤ
deriving DecidableEq, Repr

/-! ### Python dict primitives on association lists

A Python `dict` preserves insertion order: updating an existing key keeps
its position, a fresh key is appended at the end.  `lookupD m k d` is
`m.get(k, d)`, `accumAdd` is the `if k not in m: m[k] = 0` / `m[k] += v`
idiom, `dictSet` is plain assignment `m[k] = v`. -/

/-- `m.get(k, d)` on an insertion-ordered dict. -/
def lookupD {κ α : Type} [DecidableEq κ] (m : List (κ × α)) (k : κ) (d : α) : α :=
  match m with
  | [] => d
  | p :: rest => if p.1 = k then p.2 else lookupD rest k d

/-- `if k not in m: m[k] = 0` followed by `m[k] += v`. -/
def accumAdd {κ α : Type} [DecidableEq κ] [Add α] (m : List (κ × α)) (k : κ) (v : α) :
    List (κ × α) :=
  match m with
  | [] => [(k, v)]
  | p :: rest => if p.1 = k then (p.1, p.2 + v) :: rest else p :: accumAdd rest k v

/-- Plain dict assignment `m[k] = v` (overwrites, keeps position). -/
def dictSet {κ α : Type} [DecidableEq κ] (m : List (κ × α)) (k : κ) (v : α) :
    List (κ × α) :=
  match m with
  | [] => [(k, v)]
  | p :: rest => if p.1 = k then (p.1, v) :: rest else p :: dictSet rest k v

/-- Group-and-add a stream of keyed contributions into a dict, in order:
the shape of every `for …: by_year[key] += value` loop in DataAnalyzer.py. -/
def sumsOf {κ α : Type} [DecidableEq κ] [Add α] (ps : List (κ × α)) : List (κ × α) :=
  ps.foldl (fun m p => accumAdd m p.1 p.2) []

/-- The key view of a dict (`m.keys()`). -/
def keysOf {κ α : Type} (m : List (κ × α)) : List κ := m.map Prod.fst

/-- The value view of a dict (`m.values()`). -/
def valsOf {κ α : Type} (m : List (κ × α)) : List α := m.map Prod.snd

/-! ### The analyzer methods (DataAnalyzer.py) -/

/-- The record-inclusion test of the `if category:` / `if landing.category
!= category: continue` prologue: a record is kept unless a truthy (non-`None`,
non-empty) category filter is present and differs from the record's category. -/
def passesFilter (category : Option String) (l : FishLanding) : Bool :=
  match category with
  | none => true
  | some c => decide (c = "") || decide (l.category = c)

/-- `total_fish_landings_per_year` (lines 34–49): sum `pounds` by `year`
over the records passing the category filter, in list order. -/
def total_fish_landings_per_year (fish : List FishLanding) (category : Option String) :
    List (ℤ × ℤ) :=
  sumsOf ((fish.filter (passesFilter category)).map (fun l => (l.year, l.pounds)))

/-- `total_fish_category_landings_overall` (lines 70–83): running total of
`pounds` over the records passing the category filter. -/
def total_fish_category_landings_overall (fish : List FishLanding)
    (category : Option String) : ℤ :=
  ((fish.filter (passesFilter category)).map FishLanding.pounds).sum

/-- The `totals` dict of `average_fish_landings_per_year` (lines 58–66). -/
def afl_totals (fish : List FishLanding) : List (ℤ × ℤ) :=
  sumsOf (fish.map (fun l => (l.year, l.pounds)))

/-- The `counts` dict of `average_fish_landings_per_year` (lines 58–66);
a key enters `counts` exactly when it enters `totals`, so the single loop
of the source builds the same two dicts as these two passes. -/
def afl_counts (fish : List FishLanding) : List (ℤ × ℕ) :=
  sumsOf (fish.map (fun l => (l.year, (1 : ℕ))))

/-- `average_fish_landings_per_year` (lines 51–68):
`{year: totals[year] / counts[year] for year in totals}`. -/
def average_fish_landings_per_year (fish : List FishLanding) : List (ℤ × ℚ) :=
  (afl_totals fish).map
    (fun p => (p.1, (p.2 : ℚ) / ((lookupD (afl_counts fish) p.1 0 : ℕ) : ℚ)))

/-- The `totals` dict of `average_oxygen_per_year` (lines 104–112). -/
def aox_totals (water : List WaterQualityRecord) : List (ℤ × ℚ) :=
  sumsOf (water.map (fun r => (r.year, r.dissolved_oxygen)))

/-- The `counts` dict of `average_oxygen_per_year` (lines 104–112). -/
def aox_counts (water : List WaterQualityRecord) : List (ℤ × ℕ) :=
  sumsOf (water.map (fun r => (r.year, (1 : ℕ))))

/-- `average_oxygen_per_year` (lines 97–114):
`{year: totals[year] / counts[year] for year in totals}`. -/
def average_oxygen_per_year (water : List WaterQualityRecord) : List (ℤ × ℚ) :=
  (aox_totals water).map
    (fun p => (p.1, p.2 / ((lookupD (aox_counts water) p.1 0 : ℕ) : ℚ)))

/-! ### Comparator (DataAnalyzer.py lines 116–186) -/

/-- One entry of `comparison["species_changes"]` (lines 152–157).
`percent_change` is `None` (here `none`) when the year-1 baseline is not
positive. -/
structure SpeciesChange where
  year1_pounds : ℤ
  year2_pounds : ℤ
  change : ℤ
  percent_change : Option ℚ
deriving DecidableEq, Repr

/-- The result dict of `compare_species_between_years` (lines 138–144). -/
structure SpeciesComparison where
  year1 : ℤ
  year2 : ℤ
  year1_total : ℤ
  year2_total : ℤ
  species_changes : List (String × SpeciesChange)
deriving DecidableEq, Repr

/-- The record-routing loop of `compare_species_between_years`
(lines 130–134): `if landing.year == year1: year1_data[sp] = pounds`
`elif landing.year == year2: year2_data[sp] = pounds`.  Note the `elif`:
a record whose year equals `year1` never reaches `year2_data`. -/
def speciesFold (fish : List FishLanding) (year1 year2 : ℤ) :
    List (String × ℤ) × List (String × ℤ) :=
  fish.foldl
    (fun d l =>
      if l.year = year1 then (dictSet d.1 l.species l.pounds, d.2)
      else if l.year = year2 then (d.1, dictSet d.2 l.species l.pounds)
      else d)
    ([], [])

/-- One component of the record-routing loop in isolation: repeatedly
assign `m[l.species] = l.pounds` for the records selected by `q`. -/
def dictSetFold (fish : List FishLanding) (q : FishLanding → Bool) : List (String × ℤ) :=
  fish.foldl (fun m l => if q l then dictSet m l.species l.pounds else m) []

/-- `compare_species_between_years` (lines 116–159).  Python iterates the
set `set(year1_data) | set(year2_data)` in unspecified order; the union is
modelled as the year-1 keys followed by the new year-2 keys. -/
def compare_species_between_years (fish : List FishLanding) (year1 year2 : ℤ) :
    SpeciesComparison :=
  let d := speciesFold fish year1 year2
  let allSpecies := (keysOf d.1 ++ keysOf d.2).dedup
  { year1 := year1
    year2 := year2
    year1_total := (valsOf d.1).sum
    year2_total := (valsOf d.2).sum
    species_changes := allSpecies.map (fun s =>
      let pounds1 := lookupD d.1 s 0
      let pounds2 := lookupD d.2 s 0
      (s, { year1_pounds := pounds1
            year2_pounds := pounds2
            change := pounds2 - pounds1
            percent_change :=
              if 0 < pounds1 then some (((pounds2 : ℚ) - (pounds1 : ℚ)) / (pounds1 : ℚ) * 100)
              else none })) }

/-- The result dict of `compare_total_landings_between_years` (lines 179–186). -/
structure TotalsComparison where
  year1 : ℤ
  year2 : ℤ
  year1_total : ℤ
  year2_total : ℤ
  change : ℤ
  percent_change : Option ℚ
deriving DecidableEq, Repr

/-- `compare_total_landings_between_years` (lines 161–186):
`totals.get(year, 0)` baselines, `None` percentage when `total1 > 0` fails. -/
def compare_total_landings_between_years (fish : List FishLanding)
    (year1 year2 : ℤ) (category : Option String) : TotalsComparison :=
  let totals := total_fish_landings_per_year fish category
  let total1 := lookupD totals year1 0
  let total2 := lookupD totals year2 0
  { year1 := year1
    year2 := year2
    year1_total := total1
    year2_total := total2
    change := total2 - total1
    percent_change :=
      if 0 < total1 then some (((total2 : ℚ) - (total1 : ℚ)) / (total1 : ℚ) * 100)
      else none }

/-! ### Correlator (DataAnalyzer.py lines 215–258)

The only irrational step of `calc_pearson` is `denominator =
math.sqrt(fish_variance * oxygen_variance)`; every other quantity is exact.
The result coefficient is therefore carried as the exact pair
`(num, denSq)` with coefficient `num / sqrt(denSq)`; the Python test
`denominator == 0` is the test `denSq == 0` because `sqrt x = 0 ↔ x = 0`
for the nonnegative radicand `fish_variance * oxygen_variance`.  A
coefficient that the source returns as the literal `0.0` is `(0, 1)`. -/

/-- Result of `calc_pearson`: the coefficient `coeffNum / sqrt(coeffDenSq)`
together with the number of common years analyzed. -/
structure PearsonResult where
  coeffNum : ℚ
  coeffDenSq : ℚ
  nYears : ℕ
deriving DecidableEq, Repr

/-- `sorted(set(fish_by_year.keys()) & set(oxygen_by_year.keys()))`
(line 229): the distinct shared keys in ascending order. -/
def commonYearsOf (fishByYear : List (ℤ × ℤ)) (oxygenByYear : List (ℤ × ℚ)) : List ℤ :=
  ((keysOf fishByYear).filter (fun y => decide (y ∈ keysOf oxygenByYear))).dedup.insertionSort
    (fun a b => a ≤ b)

/-- `common_years` of `calc_pearson` (line 229) for the held collections. -/
def pearsonCommonYears (fish : List FishLanding) (water : List WaterQualityRecord)
    (category : Option String) : List ℤ :=
  commonYearsOf (total_fish_landings_per_year fish category) (average_oxygen_per_year water)

/-- `fish_values` of `calc_pearson` (line 235): the fish totals joined on
the common years. -/
def pearsonFishValues (fish : List FishLanding) (water : List WaterQualityRecord)
    (category : Option String) : List ℚ :=
  (pearsonCommonYears fish water category).map
    (fun y => ((lookupD (total_fish_landings_per_year fish category) y 0 : ℤ) : ℚ))

/-- `oxygen_values` of `calc_pearson` (line 236): the oxygen averages
joined on the common years. -/
def pearsonOxygenValues (fish : List FishLanding) (water : List WaterQualityRecord)
    (category : Option String) : List ℚ :=
  (pearsonCommonYears fish water category).map
    (fun y => lookupD (average_oxygen_per_year water) y 0)

/-- `fish_mean` of `calc_pearson` (line 241): `sum(fish_values) / n`. -/
def pearsonFishMean (fish : List FishLanding) (water : List WaterQualityRecord)
    (category : Option String) : ℚ :=
  (pearsonFishValues fish water category).sum
    / ((pearsonCommonYears fish water category).length : ℚ)

/-- `oxygen_mean` of `calc_pearson` (line 242). -/
def pearsonOxygenMean (fish : List FishLanding) (water : List WaterQualityRecord)
    (category : Option String) : ℚ :=
  (pearsonOxygenValues fish water category).sum
    / ((pearsonCommonYears fish water category).length : ℚ)

/-- `numerator` of `calc_pearson` (lines 245–246): the covariance sum
`Σ (x_i - x̄)(y_i - ȳ)` over the paired values. -/
def pearsonNumerator (fish : List FishLanding) (water : List WaterQualityRecord)
    (category : Option String) : ℚ :=
  (((pearsonFishValues fish water category).zip (pearsonOxygenValues fish water category)).map
    (fun p => (p.1 - pearsonFishMean fish water category)
      * (p.2 - pearsonOxygenMean fish water category))).sum

/-- `fish_variance` of `calc_pearson` (line 248): `Σ (x - x̄)²`. -/
def pearsonFishVariance (fish : List FishLanding) (water : List WaterQualityRecord)
    (category : Option String) : ℚ :=
  ((pearsonFishValues fish water category).map
    (fun x => (x - pearsonFishMean fish water category) ^ 2)).sum

/-- `oxygen_variance` of `calc_pearson` (line 249): `Σ (y - ȳ)²`. -/
def pearsonOxygenVariance (fish : List FishLanding) (water : List WaterQualityRecord)
    (category : Option String) : ℚ :=
  ((pearsonOxygenValues fish water category).map
    (fun x => (x - pearsonOxygenMean fish water category) ^ 2)).sum

/-- `calc_pearson` (lines 215–258): two-pass mean-then-deviation Pearson
correlation of the joined per-year series, with the `< 2` common years and
zero-denominator short circuits returning coefficient `0.0`.
The source's `denominator == 0` test on `sqrt(fish_variance *
oxygen_variance)` is the test on the radicand, the two being equivalent
for a nonnegative radicand. -/
def calc_pearson (fish : List FishLanding) (water : List WaterQualityRecord)
    (category : Option String) : PearsonResult :=
  if (pearsonCommonYears fish water category).length < 2 then
    { coeffNum := 0, coeffDenSq := 1,
      nYears := (pearsonCommonYears fish water category).length }
  else if pearsonFishVariance fish water category * pearsonOxygenVariance fish water category
      = 0 then
    { coeffNum := 0, coeffDenSq := 1,
      nYears := (pearsonCommonYears fish water category).length }
  else
    { coeffNum := pearsonNumerator fish water category
      coeffDenSq := pearsonFishVariance fish water category
        * pearsonOxygenVariance fish water category
      nYears := (pearsonCommonYears fish water category).length }

/-! ### Analysis facade (DataAnalyzer.py lines 282–302) -/

/-- The result dict of `get_summary_stats` (lines 293–302).  The source
rounds the Pearson coefficient to 4 decimal places for presentation; the
exact unrounded result is carried here, the rounding being a display
concern over the irrational coefficient. -/
structure SummaryStats where
  total_fish_records : ℕ
  total_water_records : ℕ
  fish_years : List ℤ
  water_years : List ℤ
  common_years : ℕ
  total_fish_category_pounds : ℤ
  pearson : PearsonResult
deriving DecidableEq, Repr

/-- `get_summary_stats` (lines 282–302).  Note `fish_years` is
`sorted(fish_by_year.values())` — the sorted pound totals, not years —
while `water_years` is `sorted(oxygen_by_year.keys())`. -/
def get_summary_stats (fish : List FishLanding) (water : List WaterQualityRecord)
    (category : Option String) : SummaryStats :=
  let fish_by_year := total_fish_landings_per_year fish category
  let oxygen_by_year := average_oxygen_per_year water
  let pearson := calc_pearson fish water category
  { total_fish_records := fish.length
    total_water_records := water.length
    fish_years := (valsOf fish_by_year).insertionSort (fun a b => a ≤ b)
    water_years := (keysOf oxygen_by_year).insertionSort (fun a b => a ≤ b)
    common_years := pearson.nYears
    total_fish_category_pounds := total_fish_category_landings_overall fish (some "Finfish")
    pearson := pearson }

/-! ### Concrete data used in scenario checks -/

/-- The fish-landing records of the testable-properties scenario of the spec. -/
def sampleFish : List FishLanding :=
  [⟨"Finfish", 2000, "Anchovy", 100⟩, ⟨"Finfish", 2000, "Sardine", 300⟩,
   ⟨"Crustaceans", 2001, "Crab", 500⟩, ⟨"Finfish", 2001, "Anchovy", 200⟩,
   ⟨"Finfish", 2002, "Tuna", 400⟩]

/-- Two landing years with equal totals: a constant fish series. -/
def constFish : List FishLanding :=
  [⟨"Finfish", 2000, "A", 5⟩, ⟨"Finfish", 2001, "B", 5⟩]

/-- Oxygen samples for 2000 and 2001 with differing values. -/
def constWater : List WaterQualityRecord :=
  [⟨"S1", "2000-01-01", 1, none, 2000⟩, ⟨"S1", "2001-01-01", 2, none, 2001⟩]

/-- A single-record collection for the same-year comparison check. -/
def oneFish : List FishLanding := [⟨"Finfish", 2000, "Anchovy", 100⟩]

/-- Two records of the same year and species with different pounds:
the second assignment overwrites the first. -/
def dupFish : List FishLanding :=
  [⟨"Finfish", 2000, "Anchovy", 100⟩, ⟨"Finfish", 2000, "Anchovy", 250⟩]

/-! ### Lemmas on the dict primitives -/

section DictLemmas

variable {κ α β : Type} [DecidableEq κ]

theorem lookupD_accumAdd [AddMonoid α] (m : List (κ × α)) (k k' : κ) (v : α) :
    lookupD (accumAdd m k v) k' 0 = lookupD m k' 0 + if k = k' then v else 0 := by
  induction m with
  | nil =>
    by_cases h : k = k' <;> simp [accumAdd, lookupD, h]
  | cons p rest ih =>
    by_cases hp : p.1 = k
    · by_cases hk : k = k'
      · subst hk
        simp [accumAdd, lookupD, hp]
      · have hp' : p.1 ≠ k' := fun h => hk (hp ▸ h)
        simp [accumAdd, lookupD, hp, hp', hk]
    · by_cases hq : p.1 = k'
      · have hk : k ≠ k' := fun h => hp (h ▸ hq)
        simp [accumAdd, lookupD, hp, hq, hk, Ne.symm hk]
      · simp [accumAdd, lookupD, hp, hq, ih]

theorem mem_keysOf_accumAdd [Add α] (m : List (κ × α)) (k k' : κ) (v : α) :
    k' ∈ keysOf (accumAdd m k v) ↔ k' ∈ keysOf m ∨ k' = k := by
  induction m with
  | nil => simp [accumAdd, keysOf]
  | cons p rest ih =>
    by_cases hp : p.1 = k
    · have he : accumAdd (p :: rest) k v = (p.1, p.2 + v) :: rest := by
        simp [accumAdd, hp]
      rw [he]
      simp only [keysOf, List.map_cons, List.mem_cons]
      rw [hp]
      tauto
    · have he : accumAdd (p :: rest) k v = p :: accumAdd rest k v := by
        simp [accumAdd, hp]
      rw [he]
      simp only [keysOf, List.map_cons, List.mem_cons] at ih ⊢
      rw [ih]
      tauto

theorem sum_valsOf_accumAdd [AddCommMonoid α] (m : List (κ × α)) (k : κ) (v : α) :
    (valsOf (accumAdd m k v)).sum = (valsOf m).sum + v := by
  induction m with
  | nil => simp [accumAdd, valsOf]
  | cons p rest ih =>
    by_cases hp : p.1 = k
    · simp only [accumAdd, if_pos hp, valsOf, List.map_cons, List.sum_cons]
      rw [add_right_comm]
    · simp only [accumAdd, if_neg hp, valsOf, List.map_cons, List.sum_cons] at *
      rw [ih, add_assoc]

theorem lookupD_foldl_accumAdd [AddCommMonoid α] (ps : List (κ × α)) (m : List (κ × α))
    (k : κ) :
    lookupD (ps.foldl (fun m p => accumAdd m p.1 p.2) m) k 0
      = lookupD m k 0 + ((ps.filter (fun p => decide (p.1 = k))).map Prod.snd).sum := by
  induction ps generalizing m with
  | nil => simp
  | cons q ps ih =>
    simp only [List.foldl_cons, ih, lookupD_accumAdd]
    by_cases hq : q.1 = k
    · simp [hq, add_assoc]
    · simp [hq]

theorem lookupD_sumsOf [AddCommMonoid α] (ps : List (κ × α)) (k : κ) :
    lookupD (sumsOf ps) k 0 = ((ps.filter (fun p => decide (p.1 = k))).map Prod.snd).sum := by
  have := lookupD_foldl_accumAdd ps [] k
  simpa [sumsOf, lookupD] using this

theorem mem_keysOf_foldl_accumAdd [Add α] (ps : List (κ × α)) (m : List (κ × α)) (k : κ) :
    k ∈ keysOf (ps.foldl (fun m p => accumAdd m p.1 p.2) m)
      ↔ k ∈ keysOf m ∨ k ∈ ps.map Prod.fst := by
  induction ps generalizing m with
  | nil => simp
  | cons q ps ih =>
    simp only [List.foldl_cons, ih, mem_keysOf_accumAdd, List.map_cons, List.mem_cons]
    tauto

theorem mem_keysOf_sumsOf [Add α] (ps : List (κ × α)) (k : κ) :
    k ∈ keysOf (sumsOf ps) ↔ k ∈ ps.map Prod.fst := by
  have := mem_keysOf_foldl_accumAdd ps [] k
  simpa [sumsOf, keysOf] using this

theorem sum_valsOf_foldl_accumAdd [AddCommMonoid α] (ps : List (κ × α)) (m : List (κ × α)) :
    (valsOf (ps.foldl (fun m p => accumAdd m p.1 p.2) m)).sum
      = (valsOf m).sum + (ps.map Prod.snd).sum := by
  induction ps generalizing m with
  | nil => simp
  | cons q ps ih =>
    simp only [List.foldl_cons, ih, sum_valsOf_accumAdd, List.map_cons, List.sum_cons]
    rw [add_assoc]

theorem sum_valsOf_sumsOf [AddCommMonoid α] (ps : List (κ × α)) :
    (valsOf (sumsOf ps)).sum = (ps.map Prod.snd).sum := by
  have := sum_valsOf_foldl_accumAdd ps []
  simpa [sumsOf, valsOf] using this

theorem lookupD_dictSet (m : List (κ × α)) (k k' : κ) (v : α) (d : α) :
    lookupD (dictSet m k v) k' d = if k = k' then v else lookupD m k' d := by
  induction m with
  | nil =>
    by_cases h : k = k' <;> simp [dictSet, lookupD, h]
  | cons p rest ih =>
    by_cases hp : p.1 = k
    · by_cases hk : k = k'
      · subst hk
        simp [dictSet, lookupD, hp]
      · have hp' : p.1 ≠ k' := fun h => hk (hp ▸ h)
        simp [dictSet, lookupD, hp, hp', hk]
    · by_cases hq : p.1 = k'
      · have hk : k ≠ k' := fun h => hp (h ▸ hq)
        simp [dictSet, lookupD, hp, hq, hk, Ne.symm hk]
      · simp [dictSet, lookupD, hp, hq, ih]

theorem dictSet_eq_append (m : List (κ × α)) (k : κ) (v : α) (h : k ∉ keysOf m) :
    dictSet m k v = m ++ [(k, v)] := by
  induction m with
  | nil => simp [dictSet]
  | cons p rest ih =>
    simp only [keysOf, List.map_cons, List.mem_cons] at h
    push_neg at h
    have hp : p.1 ≠ k := fun hh => h.1 hh.symm
    simp only [dictSet, if_neg hp, List.cons_append, List.cons.injEq, true_and]
    exact ih (by simpa [keysOf] using h.2)

theorem lookupD_foldl_accumAdd_ite [AddMonoid α] (ps : List (κ × α)) (m : List (κ × α))
    (k : κ) :
    lookupD (ps.foldl (fun m p => accumAdd m p.1 p.2) m) k 0
      = lookupD m k 0 + (ps.map (fun p => if p.1 = k then p.2 else 0)).sum := by
  induction ps generalizing m with
  | nil => simp
  | cons q ps ih =>
    simp only [List.foldl_cons, ih, lookupD_accumAdd, List.map_cons, List.sum_cons]
    rw [add_assoc]

theorem lookupD_sumsOf_ite [AddMonoid α] (ps : List (κ × α)) (k : κ) :
    lookupD (sumsOf ps) k 0 = (ps.map (fun p => if p.1 = k then p.2 else 0)).sum := by
  have := lookupD_foldl_accumAdd_ite ps [] k
  simpa [sumsOf, lookupD] using this

theorem lookupD_map_pair (m : List (κ × α)) (g : κ × α → β) (k : κ) (d : β) (d' : α)
    (h : k ∈ keysOf m) :
    lookupD (m.map (fun p => (p.1, g p))) k d = g (k, lookupD m k d') := by
  induction m with
  | nil => simp [keysOf] at h
  | cons p rest ih =>
    by_cases hp : p.1 = k
    · subst hp
      simp [lookupD]
    · simp only [keysOf, List.map_cons, List.mem_cons] at h
      rcases h with h | h
      · exact absurd h.symm hp
      · simp [lookupD, hp, ih (by simpa [keysOf] using h)]

omit [DecidableEq κ] in
theorem keysOf_map_pair (m : List (κ × α)) (g : κ × α → β) :
    keysOf (m.map (fun p => (p.1, g p))) = keysOf m := by
  rw [keysOf, List.map_map]
  rfl

omit [DecidableEq κ] in
theorem mem_keysOf_map_pair (m : List (κ × α)) (g : κ × α → β) (k : κ) :
    k ∈ keysOf (m.map (fun p => (p.1, g p))) ↔ k ∈ keysOf m := by
  rw [keysOf_map_pair]

theorem lookupD_map_graph (xs : List κ) (f : κ → β) (k : κ) (d : β) (h : k ∈ xs) :
    lookupD (xs.map (fun s => (s, f s))) k d = f k := by
  induction xs with
  | nil => simp at h
  | cons x xs ih =>
    by_cases hx : x = k
    · subst hx
      simp [lookupD]
    · rcases List.mem_cons.mp h with h | h
      · exact absurd h.symm hx
      · simp [lookupD, hx, ih h]

end DictLemmas

/-! ### Aggregator lemmas -/

/-- Summing a projection over a Bool-filtered list is summing the
if-then-else contribution over the whole list. -/
theorem sum_map_ite_filter {γ α : Type} [AddCommMonoid α] (p : γ → Bool) (g : γ → α)
    (l : List γ) :
    ((l.filter p).map g).sum = (l.map (fun x => if p x then g x else 0)).sum := by
  induction l with
  | nil => rfl
  | cons x xs ih => by_cases h : p x <;> simp [h, ih]

theorem sum_ite_one_eq_length_filter {γ : Type} (p : γ → Prop) [DecidablePred p]
    (l : List γ) :
    (l.map (fun x => if p x then (1 : ℕ) else 0)).sum
      = (l.filter (fun x => decide (p x))).length := by
  induction l with
  | nil => rfl
  | cons x xs ih =>
    by_cases h : p x
    · simp [h, ih]
      omega
    · simp [h, ih]

/-- The per-year total is the sum of the qualifying records' pound
contributions: category filter and year grouping rolled into one pass. -/
theorem lookupD_total (fish : List FishLanding) (cat : Option String) (y : ℤ) :
    lookupD (total_fish_landings_per_year fish cat) y 0
      = (fish.map (fun l => if passesFilter cat l = true ∧ l.year = y
          then l.pounds else 0)).sum := by
  unfold total_fish_landings_per_year
  rw [lookupD_sumsOf_ite, List.map_map, sum_map_ite_filter]
  congr 1
  apply List.map_congr_left
  intro l _
  by_cases hp : passesFilter cat l <;> by_cases hy : l.year = y <;>
    simp [hp, hy, Function.comp]

theorem lookupD_afl_counts (fish : List FishLanding) (y : ℤ) :
    lookupD (afl_counts fish) y 0 = (fish.filter (fun l => decide (l.year = y))).length := by
  unfold afl_counts
  rw [lookupD_sumsOf_ite, List.map_map]
  exact sum_ite_one_eq_length_filter (fun l => l.year = y) fish

/-- With no (or a falsy) category filter, `total_fish_landings_per_year`
and the `totals` dict of `average_fish_landings_per_year` coincide. -/
theorem afl_totals_eq_total_none (fish : List FishLanding) :
    afl_totals fish = total_fish_landings_per_year fish none := by
  unfold afl_totals total_fish_landings_per_year
  congr 1
  congr 1
  exact (List.filter_eq_self.mpr (fun l _ => rfl)).symm

theorem mem_keysOf_total (fish : List FishLanding) (cat : Option String) (y : ℤ) :
    y ∈ keysOf (total_fish_landings_per_year fish cat)
      ↔ ∃ l ∈ fish, passesFilter cat l = true ∧ l.year = y := by
  unfold total_fish_landings_per_year
  rw [mem_keysOf_sumsOf]
  simp [List.mem_map, List.mem_filter, and_assoc]

theorem mem_keysOf_afl_totals (fish : List FishLanding) (y : ℤ) :
    y ∈ keysOf (afl_totals fish) ↔ ∃ l ∈ fish, l.year = y := by
  unfold afl_totals
  rw [mem_keysOf_sumsOf]
  simp [List.mem_map]

theorem mem_keysOf_aox_totals (water : List WaterQualityRecord) (y : ℤ) :
    y ∈ keysOf (aox_totals water) ↔ ∃ r ∈ water, r.year = y := by
  unfold aox_totals
  rw [mem_keysOf_sumsOf]
  simp [List.mem_map]

/-- **C4.** `total_fish_landings_per_year` sums pounds grouped by year,
excluding (before summation) records whose category differs from a given
non-empty category filter and including all records when no filter is
given; on the five-record scenario it returns `{2000:400, 2001:700,
2002:400}` unfiltered and `{2000:400, 2001:200, 2002:400}` filtered to
"Finfish". -/
theorem total_fish_landings_per_year_spec :
    (∀ (fish : List FishLanding) (y : ℤ),
        lookupD (total_fish_landings_per_year fish none) y 0
          = (fish.map (fun l => if l.year = y then l.pounds else 0)).sum)
    ∧ (∀ (fish : List FishLanding) (c : String) (y : ℤ), c ≠ "" →
        lookupD (total_fish_landings_per_year fish (some c)) y 0
          = (fish.map (fun l => if l.category = c ∧ l.year = y then l.pounds else 0)).sum)
    ∧ total_fish_landings_per_year sampleFish none = [(2000, 400), (2001, 700), (2002, 400)]
    ∧ total_fish_landings_per_year sampleFish (some "Finfish")
        = [(2000, 400), (2001, 200), (2002, 400)] := by
  refine ⟨fun fish y => ?_, fun fish c y hc => ?_, by decide, by decide⟩
  · rw [lookupD_total]
    congr 1
    apply List.map_congr_left
    intro l _
    simp [passesFilter]
  · rw [lookupD_total]
    congr 1
    apply List.map_congr_left
    intro l _
    simp [passesFilter, hc]

/-- Witness for C4 at the scenario: the non-empty-filter clause applied to
category `"Finfish"` and year 2001. -/
theorem total_fish_landings_per_year_spec_witness :
    lookupD (total_fish_landings_per_year sampleFish (some "Finfish")) 2001 0 = 200 := by
  rw [total_fish_landings_per_year_spec.2.1 sampleFish "Finfish" 2001 (by decide)]
  decide

/-- **C5.** For every collection and category filter, the sum over all
years of `total_fish_landings_per_year` equals
`total_fish_category_landings_overall` with the same filter. -/
theorem sum_totals_eq_grand_total (fish : List FishLanding) (cat : Option String) :
    (valsOf (total_fish_landings_per_year fish cat)).sum
      = total_fish_category_landings_overall fish cat := by
  unfold total_fish_landings_per_year total_fish_category_landings_overall
  rw [sum_valsOf_sumsOf, List.map_map]
  rfl

/-- **C8.** The by-year aggregations key exactly the years having at least
one qualifying record (a year with none is absent, not present with 0);
empty inputs give empty mappings and a 0 grand total. -/
theorem aggregation_keys_exact :
    (∀ (fish : List FishLanding) (cat : Option String) (y : ℤ),
        y ∈ keysOf (total_fish_landings_per_year fish cat)
          ↔ ∃ l ∈ fish, passesFilter cat l = true ∧ l.year = y)
    ∧ (∀ (fish : List FishLanding) (y : ℤ),
        y ∈ keysOf (average_fish_landings_per_year fish) ↔ ∃ l ∈ fish, l.year = y)
    ∧ (∀ (water : List WaterQualityRecord) (y : ℤ),
        y ∈ keysOf (average_oxygen_per_year water) ↔ ∃ r ∈ water, r.year = y)
    ∧ (∀ cat, total_fish_landings_per_year [] cat = [])
    ∧ average_fish_landings_per_year [] = []
    ∧ average_oxygen_per_year [] = []
    ∧ (∀ cat, total_fish_category_landings_overall [] cat = 0) := by
  refine ⟨mem_keysOf_total, fun fish y => ?_, fun water y => ?_,
    fun cat => rfl, rfl, rfl, fun cat => rfl⟩
  · exact (mem_keysOf_map_pair (afl_totals fish)
      (fun p => ((p.2 : ℤ) : ℚ) / ((lookupD (afl_counts fish) p.1 0 : ℕ) : ℚ)) y).trans
      (mem_keysOf_afl_totals fish y)
  · exact (mem_keysOf_map_pair (aox_totals water)
      (fun p => p.2 / ((lookupD (aox_counts water) p.1 0 : ℕ) : ℚ)) y).trans
      (mem_keysOf_aox_totals water y)

/-- **C6.** For every year present in `average_fish_landings_per_year`,
the average equals the unfiltered per-year total divided by the number of
records of that year. -/
theorem average_fish_landings_eq_total_div_count (fish : List FishLanding) (y : ℤ)
    (h : y ∈ keysOf (average_fish_landings_per_year fish)) :
    lookupD (average_fish_landings_per_year fish) y 0
      = ((lookupD (total_fish_landings_per_year fish none) y 0 : ℤ) : ℚ)
        / ((fish.filter (fun l => decide (l.year = y))).length : ℚ) := by
  have hk : y ∈ keysOf (afl_totals fish) :=
    (mem_keysOf_map_pair (afl_totals fish)
      (fun p => ((p.2 : ℤ) : ℚ) / ((lookupD (afl_counts fish) p.1 0 : ℕ) : ℚ)) y).mp h
  calc lookupD (average_fish_landings_per_year fish) y 0
      = ((lookupD (afl_totals fish) y 0 : ℤ) : ℚ)
          / ((lookupD (afl_counts fish) y 0 : ℕ) : ℚ) :=
        lookupD_map_pair (afl_totals fish)
          (fun p => ((p.2 : ℤ) : ℚ) / ((lookupD (afl_counts fish) p.1 0 : ℕ) : ℚ)) y 0 0 hk
    _ = _ := by rw [afl_totals_eq_total_none, lookupD_afl_counts]

/-- Witness for C6: on the scenario records, the 2000 average is
400 / 2 = 200. -/
theorem average_fish_landings_eq_total_div_count_witness :
    lookupD (average_fish_landings_per_year sampleFish) 2000 0 = 200 := by
  rw [average_fish_landings_eq_total_div_count sampleFish 2000 (by decide)]
  have ht : lookupD (total_fish_landings_per_year sampleFish none) 2000 0 = 400 := by decide
  have hc : (sampleFish.filter (fun l => decide (l.year = 2000))).length = 2 := by decide
  rw [ht, hc]
  norm_num

/-- **C7.** `compare_total_landings_between_years` reports
`change = total2 - total1` always, the percentage
`(total2 - total1)/total1*100` when the year-1 total is positive, and an
absent (`none`) percentage when it is 0 (a missing year counting as 0);
on the scenario, comparing 2000 to 2001 gives change 300 and percentage 75. -/
theorem compare_total_landings_spec :
    (∀ (fish : List FishLanding) (y1 y2 : ℤ) (cat : Option String),
        (compare_total_landings_between_years fish y1 y2 cat).change
            = lookupD (total_fish_landings_per_year fish cat) y2 0
              - lookupD (total_fish_landings_per_year fish cat) y1 0
          ∧ (0 < lookupD (total_fish_landings_per_year fish cat) y1 0 →
              (compare_total_landings_between_years fish y1 y2 cat).percent_change
                = some ((((lookupD (total_fish_landings_per_year fish cat) y2 0 : ℤ) : ℚ)
                    - ((lookupD (total_fish_landings_per_year fish cat) y1 0 : ℤ) : ℚ))
                    / ((lookupD (total_fish_landings_per_year fish cat) y1 0 : ℤ) : ℚ) * 100))
          ∧ (lookupD (total_fish_landings_per_year fish cat) y1 0 = 0 →
              (compare_total_landings_between_years fish y1 y2 cat).percent_change = none))
    ∧ (compare_total_landings_between_years sampleFish 2000 2001 none).change = 300
    ∧ (compare_total_landings_between_years sampleFish 2000 2001 none).percent_change
        = some 75 := by
  have ht1 : lookupD (total_fish_landings_per_year sampleFish none) 2000 0 = 400 := by decide
  have ht2 : lookupD (total_fish_landings_per_year sampleFish none) 2001 0 = 700 := by decide
  refine ⟨fun fish y1 y2 cat => ⟨rfl, fun h1 => ?_, fun h0 => ?_⟩, by decide, ?_⟩
  · simp [compare_total_landings_between_years, h1]
  · simp [compare_total_landings_between_years, h0]
  · simp [compare_total_landings_between_years, ht1, ht2]
    norm_num

/-- Witness for C7: the positive-baseline percentage clause at the
scenario input. -/
theorem compare_total_landings_spec_witness :
    (compare_total_landings_between_years sampleFish 2000 2001 none).percent_change
      = some 75 := by
  have h := (compare_total_landings_spec.1 sampleFish 2000 2001 none).2.1 (by decide)
  rw [h]
  have ht1 : lookupD (total_fish_landings_per_year sampleFish none) 2000 0 = 400 := by decide
  have ht2 : lookupD (total_fish_landings_per_year sampleFish none) 2001 0 = 700 := by decide
  rw [ht1, ht2]
  norm_num

/-- **C9.** `get_summary_stats` returns under `fish_years` the ascending
sort of the fish totals' per-year pound values (the mapping's values), and
under `water_years` the ascending sort of the oxygen series' year keys. -/
theorem summary_stats_sorted_views (fish : List FishLanding)
    (water : List WaterQualityRecord) (cat : Option String) :
    List.Sorted (· ≤ ·) (get_summary_stats fish water cat).fish_years
    ∧ (get_summary_stats fish water cat).fish_years.Perm
        (valsOf (total_fish_landings_per_year fish cat))
    ∧ List.Sorted (· ≤ ·) (get_summary_stats fish water cat).water_years
    ∧ (get_summary_stats fish water cat).water_years.Perm
        (keysOf (average_oxygen_per_year water)) :=
  ⟨List.sorted_insertionSort _ _, List.perm_insertionSort _ _,
   List.sorted_insertionSort _ _, List.perm_insertionSort _ _⟩

/-! ### Correlator claims -/

/-- A constant list has zero sum of squared deviations about its mean. -/
theorem variance_sum_zero_of_const (l : List ℚ) (hne : l ≠ [])
    (hconst : ∀ a ∈ l, ∀ b ∈ l, a = b) :
    (l.map (fun x => (x - l.sum / (l.length : ℚ)) ^ 2)).sum = 0 := by
  obtain ⟨c, l', rfl⟩ : ∃ c l', l = c :: l' := by
    cases l with
    | nil => exact absurd rfl hne
    | cons c l' => exact ⟨c, l', rfl⟩
  have hc : ∀ x ∈ c :: l', x = c :=
    fun x hx => hconst x hx c (List.mem_cons_self c l')
  have hlen : ((c :: l').length : ℚ) ≠ 0 := by
    rw [List.length_cons]
    push_cast
    positivity
  have hmean : (c :: l').sum / ((c :: l').length : ℚ) = c := by
    rw [List.sum_eq_card_nsmul (c :: l') c hc, nsmul_eq_mul, mul_comm,
      mul_div_assoc, div_self hlen, mul_one]
  apply List.sum_eq_zero
  intro x hx
  obtain ⟨a, ha, rfl⟩ := List.mem_map.mp hx
  rw [hmean, hc a ha]
  ring

/-- **C2.** When the fish-totals and oxygen-averages series share at least
two common years and either joined series is constant, `calc_pearson`
returns exactly the zero coefficient with the common-year count, taking
the zero-denominator branch instead of dividing by zero. -/
theorem calc_pearson_zero_variance (fish : List FishLanding)
    (water : List WaterQualityRecord) (cat : Option String)
    (h2 : 2 ≤ (pearsonCommonYears fish water cat).length)
    (hconst :
      (∀ a ∈ pearsonFishValues fish water cat,
        ∀ b ∈ pearsonFishValues fish water cat, a = b)
      ∨ (∀ a ∈ pearsonOxygenValues fish water cat,
          ∀ b ∈ pearsonOxygenValues fish water cat, a = b)) :
    calc_pearson fish water cat
      = { coeffNum := 0, coeffDenSq := 1,
          nYears := (pearsonCommonYears fish water cat).length } := by
  have hcond :
      pearsonFishVariance fish water cat * pearsonOxygenVariance fish water cat = 0 := by
    rcases hconst with hf | ho
    · have hlen : (pearsonFishValues fish water cat).length
          = (pearsonCommonYears fish water cat).length := List.length_map _ _
      have hne : pearsonFishValues fish water cat ≠ [] := by
        intro hnil
        rw [hnil] at hlen
        simp at hlen
        omega
      have h0 : pearsonFishVariance fish water cat = 0 := by
        unfold pearsonFishVariance pearsonFishMean
        rw [← hlen]
        exact variance_sum_zero_of_const _ hne hf
      rw [h0, zero_mul]
    · have hlen : (pearsonOxygenValues fish water cat).length
          = (pearsonCommonYears fish water cat).length := List.length_map _ _
      have hne : pearsonOxygenValues fish water cat ≠ [] := by
        intro hnil
        rw [hnil] at hlen
        simp at hlen
        omega
      have h0 : pearsonOxygenVariance fish water cat = 0 := by
        unfold pearsonOxygenVariance pearsonOxygenMean
        rw [← hlen]
        exact variance_sum_zero_of_const _ hne ho
      rw [h0, mul_zero]
  unfold calc_pearson
  rw [if_neg (by omega), if_pos hcond]

/-- Witness for C2: a constant fish series over two common years. -/
theorem calc_pearson_zero_variance_witness :
    calc_pearson constFish constWater none = { coeffNum := 0, coeffDenSq := 1, nYears := 2 } := by
  have h := calc_pearson_zero_variance constFish constWater none (by decide)
    (Or.inl (by decide))
  exact h

/-- **C3.** With fewer than two common years, `calc_pearson` returns the
zero coefficient together with the exact (0 or 1) common-year count, and,
being a total function, raises nothing. -/
theorem calc_pearson_insufficient_years (fish : List FishLanding)
    (water : List WaterQualityRecord) (cat : Option String)
    (h : (pearsonCommonYears fish water cat).length < 2) :
    calc_pearson fish water cat
        = { coeffNum := 0, coeffDenSq := 1,
            nYears := (pearsonCommonYears fish water cat).length }
      ∧ ((pearsonCommonYears fish water cat).length = 0
          ∨ (pearsonCommonYears fish water cat).length = 1) := by
  constructor
  · unfold calc_pearson
    rw [if_pos h]
  · omega

/-- Witness for C3: empty collections have no common years. -/
theorem calc_pearson_insufficient_years_witness :
    calc_pearson [] [] none = { coeffNum := 0, coeffDenSq := 1, nYears := 0 } := by
  have h := (calc_pearson_insufficient_years [] [] none (by decide)).1
  exact h

/-! ### Comparator lemmas: the species-routing loop -/

theorem speciesFold_fst_aux (fish : List FishLanding) (y1 y2 : ℤ)
    (d : List (String × ℤ) × List (String × ℤ)) :
    (fish.foldl
      (fun d l =>
        if l.year = y1 then (dictSet d.1 l.species l.pounds, d.2)
        else if l.year = y2 then (d.1, dictSet d.2 l.species l.pounds)
        else d) d).1
      = fish.foldl
          (fun m l => if decide (l.year = y1) then dictSet m l.species l.pounds else m)
          d.1 := by
  induction fish generalizing d with
  | nil => rfl
  | cons l fish ih =>
    rw [List.foldl_cons, List.foldl_cons, ih]
    congr 1
    by_cases h1 : l.year = y1
    · simp [h1]
    · by_cases h2 : l.year = y2
      · have h21 : ¬y2 = y1 := fun he => h1 (h2.trans he)
        simp [h1, h2, h21]
      · simp [h1, h2]

theorem speciesFold_snd_aux (fish : List FishLanding) (y1 y2 : ℤ)
    (d : List (String × ℤ) × List (String × ℤ)) :
    (fish.foldl
      (fun d l =>
        if l.year = y1 then (dictSet d.1 l.species l.pounds, d.2)
        else if l.year = y2 then (d.1, dictSet d.2 l.species l.pounds)
        else d) d).2
      = fish.foldl
          (fun m l => if !decide (l.year = y1) && decide (l.year = y2)
            then dictSet m l.species l.pounds else m)
          d.2 := by
  induction fish generalizing d with
  | nil => rfl
  | cons l fish ih =>
    rw [List.foldl_cons, List.foldl_cons, ih]
    congr 1
    by_cases h1 : l.year = y1
    · simp [h1]
    · by_cases h2 : l.year = y2
      · have h21 : ¬y2 = y1 := fun he => h1 (h2.trans he)
        simp [h1, h2, h21]
      · simp [h1, h2]

theorem speciesFold_fst (fish : List FishLanding) (y1 y2 : ℤ) :
    (speciesFold fish y1 y2).1 = dictSetFold fish (fun l => decide (l.year = y1)) :=
  speciesFold_fst_aux fish y1 y2 ([], [])

theorem speciesFold_snd (fish : List FishLanding) (y1 y2 : ℤ) :
    (speciesFold fish y1 y2).2
      = dictSetFold fish (fun l => !decide (l.year = y1) && decide (l.year = y2)) :=
  speciesFold_snd_aux fish y1 y2 ([], [])

/-- Repeated dict assignment keeps, per key, the LAST selected record's
value: the overwrite semantics of `year1_data[sp] = pounds`. -/
theorem lookupD_dictSetFold_aux (q : FishLanding → Bool) (fish : List FishLanding)
    (m : List (String × ℤ)) (s : String) :
    lookupD (fish.foldl (fun m l => if q l then dictSet m l.species l.pounds else m) m) s 0
      = ((fish.filter (fun l => q l && decide (l.species = s))).map
          FishLanding.pounds).getLastD (lookupD m s 0) := by
  induction fish generalizing m with
  | nil => rfl
  | cons l fish ih =>
    rw [List.foldl_cons, ih]
    by_cases hq : q l
    · by_cases hs : l.species = s
      · rw [List.filter_cons_of_pos (by simp [hq, hs]), List.map_cons, List.getLastD_cons]
        congr 1
        rw [if_pos hq, lookupD_dictSet, if_pos hs]
      · rw [List.filter_cons_of_neg (by simp [hq, hs])]
        congr 1
        rw [if_pos hq, lookupD_dictSet, if_neg hs]
    · rw [List.filter_cons_of_neg (by simp [hq])]
      congr 1
      rw [if_neg hq]

theorem lookupD_speciesFold_fst (fish : List FishLanding) (y1 y2 : ℤ) (s : String) :
    lookupD (speciesFold fish y1 y2).1 s 0
      = ((fish.filter (fun l => decide (l.year = y1) && decide (l.species = s))).map
          FishLanding.pounds).getLastD 0 := by
  rw [speciesFold_fst]
  have h := lookupD_dictSetFold_aux (fun l => decide (l.year = y1)) fish [] s
  simpa [dictSetFold, lookupD] using h

theorem lookupD_speciesFold_snd (fish : List FishLanding) (y1 y2 : ℤ) (s : String) :
    lookupD (speciesFold fish y1 y2).2 s 0
      = ((fish.filter (fun l => !decide (l.year = y1) && decide (l.year = y2)
          && decide (l.species = s))).map FishLanding.pounds).getLastD 0 := by
  rw [speciesFold_snd]
  have h := lookupD_dictSetFold_aux
    (fun l => !decide (l.year = y1) && decide (l.year = y2)) fish [] s
  simpa [dictSetFold, lookupD] using h

/-- When the selected records have pairwise-distinct species, the repeated
assignments never overwrite and the built dict is the records in order. -/
theorem dictSetFold_aux_append (q : FishLanding → Bool) :
    ∀ (fish : List FishLanding) (m : List (String × ℤ)),
      (∀ l ∈ fish, q l = true → l.species ∉ keysOf m) →
      List.Pairwise (fun a b => q a = true → q b = true → a.species ≠ b.species) fish →
      fish.foldl (fun m l => if q l then dictSet m l.species l.pounds else m) m
        = m ++ (fish.filter q).map (fun l => (l.species, l.pounds))
  | [], m, _, _ => by simp
  | l :: fish, m, hdisj, hpw => by
    rw [List.foldl_cons]
    rcases List.pairwise_cons.mp hpw with ⟨hl, hpw2⟩
    by_cases hq : q l
    · rw [if_pos hq, dictSet_eq_append m l.species l.pounds
        (hdisj l (List.mem_cons_self l fish) hq)]
      rw [dictSetFold_aux_append q fish (m ++ [(l.species, l.pounds)]) ?_ hpw2]
      · rw [List.filter_cons_of_pos hq, List.map_cons, List.append_assoc]
        rfl
      · intro l2 hl2 hq2
        simp only [keysOf, List.map_append, List.mem_append]
        push_neg
        refine ⟨hdisj l2 (List.mem_cons_of_mem l hl2) hq2, ?_⟩
        simp only [List.map_cons, List.map_nil, List.mem_singleton]
        exact fun he => hl l2 hl2 hq hq2 he.symm
    · rw [if_neg hq,
        dictSetFold_aux_append q fish m
          (fun l2 h hq2 => hdisj l2 (List.mem_cons_of_mem l h) hq2) hpw2,
        List.filter_cons_of_neg hq]

theorem speciesFold_fst_nodup (fish : List FishLanding) (y1 y2 : ℤ)
    (hpw : List.Pairwise (fun a b => a.year ≠ b.year ∨ a.species ≠ b.species) fish) :
    (speciesFold fish y1 y2).1
      = (fish.filter (fun l => decide (l.year = y1))).map (fun l => (l.species, l.pounds)) := by
  rw [speciesFold_fst]
  unfold dictSetFold
  rw [dictSetFold_aux_append _ fish [] (by simp [keysOf]) ?_]
  · rw [List.nil_append]
  · refine hpw.imp ?_
    intro a b hab hqa hqb
    have ha : a.year = y1 := of_decide_eq_true hqa
    have hb : b.year = y1 := of_decide_eq_true hqb
    rcases hab with hy | hs
    · exact absurd (ha.trans hb.symm) hy
    · exact hs

theorem speciesFold_snd_nodup (fish : List FishLanding) (y1 y2 : ℤ) (hne : y1 ≠ y2)
    (hpw : List.Pairwise (fun a b => a.year ≠ b.year ∨ a.species ≠ b.species) fish) :
    (speciesFold fish y1 y2).2
      = (fish.filter (fun l => decide (l.year = y2))).map (fun l => (l.species, l.pounds)) := by
  rw [speciesFold_snd]
  unfold dictSetFold
  rw [dictSetFold_aux_append _ fish [] (by simp [keysOf]) ?_]
  · rw [List.nil_append]
    congr 1
    apply List.filter_congr
    intro l _
    by_cases h2 : l.year = y2
    · have h21 : ¬y2 = y1 := fun hh => hne hh.symm
      simp [h2, h21]
    · simp [h2]
  · refine hpw.imp ?_
    intro a b hab hqa hqb
    rw [Bool.and_eq_true] at hqa hqb
    have ha : a.year = y2 := of_decide_eq_true hqa.2
    have hb : b.year = y2 := of_decide_eq_true hqb.2
    rcases hab with hy | hs
    · exact absurd (ha.trans hb.symm) hy
    · exact hs

theorem length_filter_le_one_of_pairwise {γ : Type} {R : γ → γ → Prop} {p : γ → Bool}
    {l : List γ} (hpw : List.Pairwise R l)
    (hcon : ∀ a b, p a = true → p b = true → R a b → False) :
    (l.filter p).length ≤ 1 := by
  have hp : List.Pairwise R (l.filter p) := hpw.sublist (List.filter_sublist l)
  rcases hfl : l.filter p with _ | ⟨x, _ | ⟨y, rest⟩⟩
  · simp
  · simp
  · exfalso
    have hx : x ∈ l.filter p := by rw [hfl]; exact List.mem_cons_self _ _
    have hy : y ∈ l.filter p := by rw [hfl]; exact List.mem_cons_of_mem _ (List.mem_cons_self _ _)
    rw [hfl] at hp
    rcases List.pairwise_cons.mp hp with ⟨hR, _⟩
    exact hcon x y (List.mem_filter.mp hx).2 (List.mem_filter.mp hy).2
      (hR y (List.mem_cons_self _ _))

theorem getLastD_eq_sum_of_len_le_one (l : List ℤ) (h : l.length ≤ 1) :
    l.getLastD 0 = l.sum := by
  match l with
  | [] => rfl
  | [x] => simp
  | x :: y :: rest => simp at h

theorem dictSetFold_step_const (q : FishLanding → Bool) :
    ∀ (fish : List FishLanding) (m : List (String × ℤ)),
      (∀ l ∈ fish, q l = false) →
      fish.foldl (fun m l => if q l then dictSet m l.species l.pounds else m) m = m
  | [], _, _ => rfl
  | l :: fish, m, hq => by
    rw [List.foldl_cons, if_neg (by simp [hq l (List.mem_cons_self l fish)])]
    exact dictSetFold_step_const q fish m (fun l2 h => hq l2 (List.mem_cons_of_mem l h))

/-- With the same year passed twice, the `elif` of the routing loop is
unreachable and `year2_data` stays empty. -/
theorem speciesFold_snd_same (fish : List FishLanding) (y : ℤ) :
    (speciesFold fish y y).2 = [] := by
  rw [speciesFold_snd]
  unfold dictSetFold
  exact dictSetFold_step_const _ fish []
    (fun l _ => by by_cases h : l.year = y <;> simp [h])

/-- The `species_changes` entry of a species in the union universe. -/
theorem compare_species_entry (fish : List FishLanding) (y1 y2 : ℤ) (s : String)
    (h : s ∈ (keysOf (speciesFold fish y1 y2).1 ++ keysOf (speciesFold fish y1 y2).2).dedup) :
    lookupD (compare_species_between_years fish y1 y2).species_changes s
        { year1_pounds := 0, year2_pounds := 0, change := 0, percent_change := none }
      = { year1_pounds := lookupD (speciesFold fish y1 y2).1 s 0
          year2_pounds := lookupD (speciesFold fish y1 y2).2 s 0
          change := lookupD (speciesFold fish y1 y2).2 s 0
            - lookupD (speciesFold fish y1 y2).1 s 0
          percent_change :=
            if 0 < lookupD (speciesFold fish y1 y2).1 s 0 then
              some ((((lookupD (speciesFold fish y1 y2).2 s 0 : ℤ) : ℚ)
                  - ((lookupD (speciesFold fish y1 y2).1 s 0 : ℤ) : ℚ))
                / ((lookupD (speciesFold fish y1 y2).1 s 0 : ℤ) : ℚ) * 100)
            else none } :=
  lookupD_map_graph _ _ s _ h

/-- C1 counterexample: a species present (with positive pounds) in year
2000 is reported by the same-year comparison with change −100 ≠ 0. -/
theorem compare_species_same_year_not_zero_change :
    (lookupD (compare_species_between_years oneFish 2000 2000).species_changes "Anchovy"
        { year1_pounds := 0, year2_pounds := 0, change := 0, percent_change := none }).change
        = -100
    ∧ (lookupD (compare_species_between_years oneFish 2000 2000).species_changes "Anchovy"
        { year1_pounds := 0, year2_pounds := 0, change := 0,
          percent_change := none }).change ≠ 0 := by
  constructor
  · decide
  · decide

/-- **C1 (amended).** `compare_species_between_years(y, y)` routes every
record of year `y` into `year1_data` only (the `elif` never fires), so a
species present in year `y` is reported with `year2_pounds = 0`,
`change = -pounds1`, `percent_change = -100` when `pounds1 > 0`, and an
absent percentage when `pounds1 = 0` — not change 0 / percentage 0. -/
theorem compare_species_same_year_behavior (fish : List FishLanding) (y : ℤ) (s : String)
    (h : s ∈ keysOf (speciesFold fish y y).1) :
    (lookupD (compare_species_between_years fish y y).species_changes s
        { year1_pounds := 0, year2_pounds := 0, change := 0,
          percent_change := none }).year2_pounds = 0
    ∧ (lookupD (compare_species_between_years fish y y).species_changes s
        { year1_pounds := 0, year2_pounds := 0, change := 0,
          percent_change := none }).change = - lookupD (speciesFold fish y y).1 s 0
    ∧ (0 < lookupD (speciesFold fish y y).1 s 0 →
        (lookupD (compare_species_between_years fish y y).species_changes s
          { year1_pounds := 0, year2_pounds := 0, change := 0,
            percent_change := none }).percent_change = some (-100))
    ∧ (lookupD (speciesFold fish y y).1 s 0 = 0 →
        (lookupD (compare_species_between_years fish y y).species_changes s
          { year1_pounds := 0, year2_pounds := 0, change := 0,
            percent_change := none }).percent_change = none) := by
  have hmem : s ∈ (keysOf (speciesFold fish y y).1 ++ keysOf (speciesFold fish y y).2).dedup :=
    List.mem_dedup.mpr (List.mem_append_left _ h)
  have h2 : lookupD (speciesFold fish y y).2 s 0 = 0 := by
    rw [speciesFold_snd_same]
    rfl
  refine ⟨?_, ?_, fun hpos => ?_, fun hzero => ?_⟩
  · rw [compare_species_entry fish y y s hmem]
    exact h2
  · rw [compare_species_entry fish y y s hmem]
    simp [h2]
  · rw [compare_species_entry fish y y s hmem]
    have hne : ((lookupD (speciesFold fish y y).1 s 0 : ℤ) : ℚ) ≠ 0 :=
      Int.cast_ne_zero.mpr hpos.ne'
    simp only [h2, Int.cast_zero, if_pos hpos]
    congr 1
    field_simp
  · rw [compare_species_entry fish y y s hmem]
    simp [hzero]

/-- Witness for the amended C1: the single-record collection, where
percent_change comes out −100, not 0. -/
theorem compare_species_same_year_behavior_witness :
    (lookupD (compare_species_between_years oneFish 2000 2000).species_changes "Anchovy"
        { year1_pounds := 0, year2_pounds := 0, change := 0,
          percent_change := none }).percent_change = some (-100) :=
  (compare_species_same_year_behavior oneFish 2000 "Anchovy" (by decide)).2.2.1 (by decide)

/-- **C10.** In `compare_species_between_years`, a species appearing in
several records of one compared year keeps only the LAST record's pounds
(dict assignment overwrites), so the per-species pounds and the per-year
totals agree with the sums over records exactly under the
at-most-one-record-per-(year, species) discipline. -/
theorem species_overwrite_semantics :
    (∀ (fish : List FishLanding) (y1 y2 : ℤ) (s : String),
        lookupD (speciesFold fish y1 y2).1 s 0
          = ((fish.filter (fun l => decide (l.year = y1) && decide (l.species = s))).map
              FishLanding.pounds).getLastD 0)
    ∧ (∀ (fish : List FishLanding) (y1 y2 : ℤ) (s : String),
        lookupD (speciesFold fish y1 y2).2 s 0
          = ((fish.filter (fun l => !decide (l.year = y1) && decide (l.year = y2)
              && decide (l.species = s))).map FishLanding.pounds).getLastD 0)
    ∧ (∀ (fish : List FishLanding) (y1 y2 : ℤ),
        List.Pairwise (fun a b => a.year ≠ b.year ∨ a.species ≠ b.species) fish →
          (∀ s : String, lookupD (speciesFold fish y1 y2).1 s 0
              = ((fish.filter (fun l => decide (l.year = y1) && decide (l.species = s))).map
                  FishLanding.pounds).sum)
          ∧ (compare_species_between_years fish y1 y2).year1_total
              = ((fish.filter (fun l => decide (l.year = y1))).map FishLanding.pounds).sum
          ∧ (y1 ≠ y2 →
              (compare_species_between_years fish y1 y2).year2_total
                = ((fish.filter (fun l => decide (l.year = y2))).map FishLanding.pounds).sum))
    ∧ lookupD (speciesFold dupFish 2000 2001).1 "Anchovy" 0 = 250 := by
  refine ⟨lookupD_speciesFold_fst, lookupD_speciesFold_snd,
    fun fish y1 y2 hpw => ⟨fun s => ?_, ?_, fun hne => ?_⟩, by decide⟩
  · have hlen : (fish.filter
        (fun l => decide (l.year = y1) && decide (l.species = s))).length ≤ 1 := by
      refine length_filter_le_one_of_pairwise hpw ?_
      intro a b hpa hpb hab
      rw [Bool.and_eq_true] at hpa hpb
      have hay : a.year = y1 := of_decide_eq_true hpa.1
      have hby : b.year = y1 := of_decide_eq_true hpb.1
      have has : a.species = s := of_decide_eq_true hpa.2
      have hbs : b.species = s := of_decide_eq_true hpb.2
      rcases hab with hy | hs2
      · exact hy (hay.trans hby.symm)
      · exact hs2 (has.trans hbs.symm)
    rw [lookupD_speciesFold_fst,
      getLastD_eq_sum_of_len_le_one _ (by rw [List.length_map]; exact hlen)]
  · show (valsOf (speciesFold fish y1 y2).1).sum = _
    rw [speciesFold_fst_nodup fish y1 y2 hpw, valsOf, List.map_map]
    rfl
  · show (valsOf (speciesFold fish y1 y2).2).sum = _
    rw [speciesFold_snd_nodup fish y1 y2 hne hpw, valsOf, List.map_map]
    rfl

/-- Witness for C10 at the scenario records (pairwise distinct
(year, species) pairs): the per-year total is the plain sum. -/
theorem species_overwrite_semantics_witness :
    (compare_species_between_years sampleFish 2000 2001).year1_total = 400 := by
  have h := (species_overwrite_semantics.2.2.1 sampleFish 2000 2001 (by decide)).2.1
  rw [h]
  decide

end FishAnalysis
